import Mathlib

/-!
# Verification of the Tea download orchestration core

Shallow embedding of the concurrent download orchestration and
retry/classification subsystem of the Tea YouTube downloader
(`src/tea/downloader.py`, `src/tea/info.py`, `src/tea/history.py`,
`src/tea/utils/security.py`), together with proofs of the spec's
testable properties.

The external extraction collaborator (`yt_dlp.YoutubeDL.extract_info`) is
modelled as an oracle value supplied to each function: an exception raised
by the collaborator is the oracle value `ExtractResult.err msg` (with
`msg = str(error)`), a `None` return is `ExtractResult.retNone`, a result
dict with `_type == 'playlist'` is `ExtractResult.playlist title entries`
(`entries` is the length of its `entries` list, `title` is `None` when the
`title` key is absent), and any other dict is `ExtractResult.single title`.
Wall-clock sleeping is recorded (the list of slept durations) rather than
performed; the current date and timestamp are inputs.
-/

set_option autoImplicit false

namespace Tea

/-- `MAX_RETRIES` from `src/tea/downloader.py` line 34. -/
def MAX_RETRIES : Nat := 3

/-- `RETRY_DELAY` from `src/tea/downloader.py` line 35. -/
def RETRY_DELAY : Nat := 2

/-- `MAX_CONCURRENT_WORKERS` from `src/tea/downloader.py` line 36. -/
def MAX_CONCURRENT_WORKERS : Nat := 5

/-- One response of the external extraction collaborator to a
`ydl.extract_info(url, download=True)` call inside the retry loop of
`DownloadService.download_single_video` (downloader.py lines 201-243). -/
inductive ExtractResult where
  /-- the call raised an exception whose `str` is `msg` -/
  | err (msg : String)
  /-- the call returned `None` -/
  | retNone
  /-- the call returned a dict with `_type == 'playlist'`; `title` is its
  optional `title` field and `entries` the length of its `entries` list -/
  | playlist (title : Option String) (entries : Nat)
  /-- the call returned any other dict, with optional `title` field -/
  | single (title : Option String)
deriving DecidableEq

/-- The result dict built by `DownloadService.download_single_video`
(downloader.py lines 204-264): keys `url`, `success`, `count`, `message`
are always present; `title` and `type` only on success. -/
structure DownloadOutcome where
  url : String
  success : Bool
  count : Nat
  title : Option String
  type : Option String
  message : String
deriving DecidableEq

/-- Observable behaviour of one `download_single_video` call: the returned
outcome dict, the number of `extract_info` attempts made, and the sequence
of back-off sleeps performed (in seconds, in order). -/
structure WorkerResult where
  outcome : DownloadOutcome
  attempts : Nat
  sleeps : List Nat
deriving DecidableEq

/-- Python `str.title()` restricted to its behaviour on ASCII text: the
first letter of each alphabetic run is upper-cased, the rest lower-cased.
Used for `content_type.title()` in the worker's messages (the inputs there
are the single lower-case words `video`, `playlist`, `channel`). -/
def pyTitleGo : List Char → Bool → List Char
  | [], _ => []
  | c :: rest, prevAlpha =>
    (if prevAlpha then c.toLower else c.toUpper) :: pyTitleGo rest c.isAlpha

/-- Python `str.title()` (see `pyTitleGo`). -/
def pyTitle (s : String) : String := ⟨pyTitleGo s.data false⟩

/-- Python `str(x)` for the `last_exception` variable, which is either an
exception (its message) or still `None`. -/
def pyStr (o : Option String) : String := o.getD "None"

/-- The retry loop of `DownloadService.download_single_video`
(downloader.py lines 197-264), by recursion on the remaining loop
iterations.  `attempt` is the Python loop variable (starting at 1), `fuel`
the number of iterations `range(1, MAX_RETRIES + 1)` still has to run, and
`lastExc` the `last_exception` variable.  `ct` is the `content_type`
computed before the loop (line 156), `tid` the `thread_id`, `ao` the
`audio_only` flag and `outPath` the `output_path`.  The oracle gives the
collaborator's response to the n-th `extract_info` call. -/
def downloadLoop (url ct : String) (tid : Nat) (ao : Bool) (outPath : String)
    (oracle : Nat → ExtractResult) : Nat → Nat → Option String → WorkerResult
  | _, 0, lastExc =>
    -- fall-through after the loop (downloader.py lines 259-264)
    { outcome :=
        { url := url, success := false, count := 0, title := none, type := none
          message := "[ERROR] [Thread " ++ toString tid ++ "] Unexpected error: " ++ pyStr lastExc }
      attempts := 0, sleeps := [] }
  | attempt, fuel + 1, _ =>
    match oracle attempt with
    | ExtractResult.retNone =>
      -- downloader.py lines 204-210: None result, returned without retry
      { outcome :=
          { url := url, success := false, count := 0, title := none, type := none
            message := "[ERROR] [Thread " ++ toString tid ++
              "] Failed to extract video information. Video may be private or unavailable." }
        attempts := 1, sleeps := [] }
    | ExtractResult.playlist t n =>
      let title := t.getD "Unknown Playlist"
      if n = 0 then
        -- downloader.py lines 217-223: empty playlist, returned without retry
        { outcome :=
            { url := url, success := false, count := 0, title := none, type := none
              message := "[ERROR] [Thread " ++ toString tid ++ "] " ++ pyTitle ct ++
                " appears to be empty or private" }
          attempts := 1, sleeps := [] }
      else
        -- downloader.py lines 225-232: playlist success
        { outcome :=
            { url := url, success := true, count := n, title := some title, type := some ct
              message := "[OK] [Thread " ++ toString tid ++ "] " ++ pyTitle ct ++ " \x27" ++
                title ++ "\x27 download completed! (" ++ toString n ++ " " ++
                (if ao then "MP3s" else "videos") ++ ") Location: " ++ outPath }
          attempts := 1, sleeps := [] }
    | ExtractResult.single t =>
      let title := t.getD "Unknown"
      -- downloader.py lines 233-242: single-video success
      { outcome :=
          { url := url, success := true, count := 1, title := some title, type := some "video"
            message := "[OK] [Thread " ++ toString tid ++ "] " ++
              (if ao then "Audio" else "Video") ++ " \x27" ++ title ++
              "\x27 download completed! Location: " ++ outPath }
        attempts := 1, sleeps := [] }
    | ExtractResult.err m =>
      -- downloader.py lines 244-257
      if attempt < MAX_RETRIES then
        let delay := RETRY_DELAY * 2 ^ (attempt - 1)
        let rest := downloadLoop url ct tid ao outPath oracle (attempt + 1) fuel (some m)
        { outcome := rest.outcome, attempts := rest.attempts + 1, sleeps := delay :: rest.sleeps }
      else
        { outcome :=
            { url := url, success := false, count := 0, title := none, type := none
              message := "[ERROR] [Thread " ++ toString tid ++ "] Failed after " ++
                toString MAX_RETRIES ++ " attempts. Last error: " ++ m }
          attempts := 1, sleeps := [] }

/-- `DownloadService.download_single_video` (downloader.py lines 73-264),
restricted to its observable retry/outcome behaviour: the option-building,
output-template and AI-cleaning code before the loop only affects the
options passed to the collaborator, which the oracle already abstracts;
`ct` stands for the `content_type` obtained from
`self._info.get_info(url)` at line 156. -/
def download_single_video (url ct : String) (tid : Nat) (ao : Bool) (outPath : String)
    (oracle : Nat → ExtractResult) : WorkerResult :=
  downloadLoop url ct tid ao outPath oracle 1 MAX_RETRIES none

/-! ## Content classification (`src/tea/info.py`) -/

/-- Auxiliary substring search: does `pat` occur contiguously in the
second list? -/
def strContainsAux (pat : List Char) : List Char → Bool
  | [] => pat.isEmpty
  | c :: rest => List.isPrefixOf pat (c :: rest) || strContainsAux pat rest

/-- Substring test: Python's `pat in s` for strings. -/
def strContains (s pat : String) : Bool := strContainsAux pat.data s.data

/-- `InfoExtractor._is_channel_url` (info.py lines 112-120): the URL is a
channel URL when it contains one of the segments `/@`, `/channel/`,
`/c/`, `/user/`. -/
def is_channel_url (url : String) : Bool :=
  [ strContains url "/@",
    strContains url "/channel/",
    strContains url "/c/",
    strContains url "/user/" ].any id

/-- The fragment-stripping step of `urllib.parse.urlparse`: everything
before the first `#`. -/
def stripFragment (url : String) : String := (url.splitOn "#").headD url

/-- The `query` component of `urllib.parse.urlparse(url)`: everything
after the first `?` (with the fragment already removed). -/
def urlQuery (url : String) : String :=
  match (stripFragment url).splitOn "?" with
  | [] => ""
  | [_] => ""
  | _ :: rest => String.intercalate "?" rest

/-- `key in urllib.parse.parse_qs(query)`: the query, split on `&`, has a
field `key=value` with a non-empty value (fields without `=` or with an
empty value are dropped by `parse_qs`, which keeps blank values only when
asked to). Percent-decoding is not modelled (no claim depends on it). -/
def hasQueryKey (query key : String) : Bool :=
  (query.splitOn "&").any fun field =>
    match field.splitOn "=" with
    | [_] => false
    | k :: vs => k = key && !(String.intercalate "=" vs == "")
    | [] => false

/-- `InfoExtractor._guess_from_url` (info.py lines 88-110), returning the
content-type component (the second component is always the empty dict). -/
def guess_from_url (url : String) : String :=
  if is_channel_url url then "channel"
  else if hasQueryKey (urlQuery url) "list" then "playlist"
  else "video"

/-- One response of the external extraction collaborator to the
metadata-only `ydl.extract_info(url, download=False)` call in
`InfoExtractor._extract_with_ytdlp` (info.py lines 57-86). -/
inductive YtdlpResult where
  /-- the call raised an exception -/
  | raises
  /-- the call returned `None` -/
  | retNone
  /-- the call returned an info dict whose optional `_type` field is `t` -/
  | ret (t : Option String)
deriving DecidableEq

/-- `InfoExtractor._extract_with_ytdlp` (info.py lines 47-86), returning
the content-type component: on an exception or a `None` result it falls
back to `_guess_from_url`; a successful result's `_type` (defaulting to
`'video'`) is reclassified from `'playlist'` to `'channel'` when the URL
matches the channel patterns. -/
def extract_with_ytdlp (res : YtdlpResult) (url : String) : String :=
  match res with
  | YtdlpResult.raises => guess_from_url url
  | YtdlpResult.retNone => guess_from_url url
  | YtdlpResult.ret t =>
    let content_type := t.getD "video"
    if content_type = "playlist" then
      if is_channel_url url then "channel" else "playlist"
    else content_type

/-- `InfoExtractor.get_info` (info.py lines 122-141) with `use_cache =
True`: the private cache is an association list from URL to the cached
content type; on a miss the extraction result is cached.  Returns the
content type and the updated cache. -/
def get_info (cache : List (String × String)) (res : YtdlpResult) (url : String) :
    String × List (String × String) :=
  match cache.find? (fun p => p.1 = url) with
  | some p => (p.2, cache)
  | none =>
    let r := extract_with_ytdlp res url
    (r, cache ++ [(url, r)])

/-- The three content kinds of the spec's `ContentKind`. -/
def isContentKind (s : String) : Prop :=
  s = "video" ∨ s = "playlist" ∨ s = "channel"

/-- The collaborator result shapes of spec section 6: an exception, a
`None` return, a playlist-typed mapping, or a single-item mapping (whose
`_type`, when present at top level, is `'video'`). -/
def specShapedResult (res : YtdlpResult) : Prop :=
  res = YtdlpResult.raises ∨ res = YtdlpResult.retNone ∨
  res = YtdlpResult.ret none ∨ res = YtdlpResult.ret (some "video") ∨
  res = YtdlpResult.ret (some "playlist")

/-! ## History store (`src/tea/history.py`)

The persisted JSON structure is `Dict[str, List[Dict]]`: a date-keyed,
insertion-ordered map from date strings to lists of entry dicts.  It is
embedded as an association list with the dict's insertion order; Python
dict keys are unique, and every operation below preserves uniqueness and
never depends on duplicates.  `load`/`save` are full-file read/write of
this structure; since each `HistoryManager` method re-loads before it
acts and the spec assumes single-process access, the file content is the
single `History` value threaded through the functions, and `save`'s `bool`
result (file-system success) is abstracted away.  `datetime.now()` is an
input (`today` for the date key, `ts` for the ISO timestamp). -/

/-- One entry of the history file: `{url, title, output_path, timestamp}`
(history.py lines 93-98). -/
structure HistoryEntry where
  url : String
  title : String
  output_path : String
  timestamp : String
deriving DecidableEq

/-- The persisted history structure: insertion-ordered map from date
string to entry list. -/
abbrev History := List (String × List HistoryEntry)

namespace HistoryManager

/-- Appending under a date key of a Python dict: mutate the first (unique)
matching key in place, or add the key at the end. Implements lines 90-98
of history.py (`if today not in self._history: ... append`). -/
def histAppend : History → String → HistoryEntry → History
  | [], today, e => [(today, [e])]
  | (d, ds) :: rest, today, e =>
    if d = today then (d, ds ++ [e]) :: rest
    else (d, ds) :: histAppend rest today e

/-- `HistoryManager.add` (history.py lines 74-100) as a transition on the
persisted structure. -/
def add (h : History) (today url title output_path ts : String) : History :=
  histAppend h today { url := url, title := title, output_path := output_path, timestamp := ts }

/-- `HistoryManager.is_downloaded` (history.py lines 102-118): scan the
partitions in order, return the first entry whose `url` matches. -/
def is_downloaded : History → String → Bool × Option HistoryEntry
  | [], _ => (false, none)
  | (_, ds) :: rest, url =>
    match ds.find? (fun d => d.url = url) with
    | some d => (true, some d)
    | none => is_downloaded rest url

/-- `HistoryManager.remove` (history.py lines 120-150): filter out the
matching entries of every partition (recording whether any partition
shrank), then prune the partitions left empty.  Returns the `found` flag
and the resulting in-memory structure. -/
def remove (h : History) (url : String) : Bool × History :=
  let stripped := h.map fun p => (p.1, p.2.filter fun d => !(d.url = url))
  let found := h.any fun p => (p.2.filter fun d => !(d.url = url)).length < p.2.length
  (found, stripped.filter fun p => !p.2.isEmpty)

/-- The effect of `HistoryManager.remove` on the persisted file: the
method calls `save()` only when something was removed (history.py lines
147-150), so the file keeps its old content otherwise. -/
def removeFile (h : History) (url : String) : History :=
  if (remove h url).1 then (remove h url).2 else h

/-- A concrete history entry, used in witnesses. -/
def sampleEntry : HistoryEntry :=
  { url := "u", title := "t", output_path := "o", timestamp := "s" }

/-- A concrete one-partition history, used in witnesses. -/
def sampleHistory : History := [("2025-01-01", [sampleEntry])]

end HistoryManager

/-! ## Download coordination (`DownloadService.download`,
`src/tea/downloader.py` lines 266-339 and 354-376)

The thread pool is modelled by its observable contract: the coordinator
submits one task per URL (each task runs `download_single_video`), blocks
until all complete, and consumes the outcomes in completion order — an
arbitrary permutation of the submitted tasks' outcomes.  Theorems about a
batch therefore quantify over every permutation of the workers' outcome
list. -/

/-- The aggregate summary printed by `DownloadService._print_summary`
(downloader.py lines 354-376): `totalSuccessful` and `totalFailed` are the
sums of the `count` fields over the successful resp. failed outcomes
(`r.get('count', 1)` always finds the key, every worker outcome carries
`count`), and `failedUrls` lists each failed outcome's url with its
message (the printed `Reason:`). -/
structure Summary where
  totalSuccessful : Nat
  totalFailed : Nat
  failedUrls : List (String × String)
deriving DecidableEq

/-- `DownloadService._print_summary` (downloader.py lines 354-376). -/
def print_summary (results : List DownloadOutcome) : Summary :=
  { totalSuccessful := ((results.filter fun r => r.success).map fun r => r.count).sum
    totalFailed := ((results.filter fun r => !r.success).map fun r => r.count).sum
    failedUrls := (results.filter fun r => !r.success).map fun r => (r.url, r.message) }

/-- The history entry written for a successful outcome by the collection
loop: `self._history.add(result['url'], result.get('title', 'Unknown'),
output_path)` (downloader.py lines 334-336). -/
def outcomeEntry (outPath ts : String) (r : DownloadOutcome) : HistoryEntry :=
  { url := r.url, title := r.title.getD "Unknown", output_path := outPath, timestamp := ts }

/-- The effect of the `as_completed` collection loop (downloader.py lines
329-336) on the history file: outcomes are consumed in completion order;
each successful one is added to the history, failures leave it alone. -/
def processResults (today outPath ts : String) : History → List DownloadOutcome → History
  | h, [] => h
  | h, r :: rest =>
    processResults today outPath ts
      (if r.success then
        HistoryManager.add h today r.url (r.title.getD "Unknown") outPath ts
      else h) rest

/-- The lookup of all entries stored under one date key (unique in a
Python dict). -/
def entriesOn : History → String → List HistoryEntry
  | [], _ => []
  | (dd, ds) :: rest, d => if dd = d then ds else entriesOn rest d

/-- The submission step of `DownloadService.download` (downloader.py lines
321-327): a `ThreadPoolExecutor(max_workers=max_workers)` — the pool size
is passed through unchanged — and one submitted task per URL, task `i`
carrying thread id `i+1`. -/
structure BatchSubmission where
  poolSize : Nat
  tasks : List (Nat × String)
deriving DecidableEq

/-- The pool size and task list created at downloader.py lines 321-327. -/
def submitBatch (urls : List String) (max_workers : Nat) : BatchSubmission :=
  { poolSize := max_workers
    tasks := urls.enum.map fun p => (p.1 + 1, p.2) }

/-- `validate_concurrent_workers` (src/tea/utils/security.py lines
272-286).  Its argument is the result of Python `int(value)`: `none` when
the conversion raised `ValueError`/`TypeError`, otherwise the parsed
integer. -/
def validate_concurrent_workers (value : Option Int) : Bool :=
  match value with
  | none => false
  | some num => decide (1 ≤ num) && decide (num ≤ 5)

/-- The outcome list of the submitted worker tasks in submission order:
task `i` (thread id `i+1`) runs `download_single_video` on its URL.
`ctFor` gives each URL's classification and `oracleFor` the collaborator's
responses for that URL. -/
def workerOutcomes (urls : List String) (ctFor : String → String) (ao : Bool)
    (outPath : String) (oracleFor : String → Nat → ExtractResult) : List DownloadOutcome :=
  urls.enum.map fun p =>
    (download_single_video p.2 (ctFor p.2) (p.1 + 1) ao outPath (oracleFor p.2)).outcome

/-! ### The concrete scenario of claim C1 -/

/-- First URL of the C1 scenario. -/
def scenarioUrlA : String := "https://youtu.be/AAA"

/-- Second URL of the C1 scenario. -/
def scenarioUrlB : String := "https://youtube.com/watch?v=BBB"

/-- The collaborator of the C1 scenario: the first URL succeeds as a
single video titled `Song` on every attempt, the second raises on every
attempt. -/
def scenarioOracle (u : String) (_n : Nat) : ExtractResult :=
  if u = scenarioUrlA then ExtractResult.single (some "Song")
  else ExtractResult.err "Network error"

/-- Worker outcomes of the C1 scenario batch, in submission order, with
both URLs classified as videos and output directory `downloads`. -/
def scenarioOutcomes : List DownloadOutcome :=
  workerOutcomes [scenarioUrlA, scenarioUrlB] (fun _ => "video") false "downloads"
    scenarioOracle

/-- The single history entry the C1 scenario writes: the successful URL
with the title `Song`. -/
def scenarioEntry (ts : String) : HistoryEntry :=
  { url := scenarioUrlA, title := "Song", output_path := "downloads", timestamp := ts }

end Tea

namespace Tea

/-- The invariant behind claim C4, proved for every starting point of the
retry loop: a successful outcome always carries a positive count. -/
theorem downloadLoop_success_count (url ct : String) (tid : Nat) (ao : Bool)
    (outPath : String) (oracle : Nat → ExtractResult) :
    ∀ (fuel attempt : Nat) (lastExc : Option String),
      (downloadLoop url ct tid ao outPath oracle attempt fuel lastExc).outcome.success = true →
      1 ≤ (downloadLoop url ct tid ao outPath oracle attempt fuel lastExc).outcome.count := by
  intro fuel
  induction fuel with
  | zero => intro attempt lastExc h; simp [downloadLoop] at h
  | succ n ih =>
    intro attempt lastExc h
    rw [downloadLoop] at h ⊢
    cases ho : oracle attempt with
    | err m =>
      rw [ho] at h
      dsimp only at h ⊢
      by_cases hlt : attempt < MAX_RETRIES
      · rw [if_pos hlt] at h ⊢
        exact ih (attempt + 1) (some m) h
      · rw [if_neg hlt] at h
        simp at h
    | retNone =>
      rw [ho] at h
      simp at h
    | playlist t k =>
      rw [ho] at h
      dsimp only at h ⊢
      by_cases hk : k = 0
      · rw [if_pos hk] at h
        simp at h
      · rw [if_neg hk]
        dsimp only
        omega
    | single t =>
      dsimp only
      omega

end Tea

/-- C2: for every URL whose download call raises on every attempt (the
n-th attempt raising an exception with message `msgs n`), the worker makes
exactly 3 attempts, sleeps 2 seconds after the first failure and 4 seconds
after the second and nothing after the third, and returns a failure
outcome whose message carries the last exception's message; exceptions are
converted to outcome values, never propagated (the embedding is total). -/
theorem C2_retry_ceiling (url ct : String) (tid : Nat) (ao : Bool) (outPath : String)
    (msgs : Nat → String) :
    (Tea.download_single_video url ct tid ao outPath
      (fun n => Tea.ExtractResult.err (msgs n))).attempts = 3 ∧
    (Tea.download_single_video url ct tid ao outPath
      (fun n => Tea.ExtractResult.err (msgs n))).sleeps = [2, 4] ∧
    (Tea.download_single_video url ct tid ao outPath
      (fun n => Tea.ExtractResult.err (msgs n))).outcome.success = false ∧
    (Tea.download_single_video url ct tid ao outPath
      (fun n => Tea.ExtractResult.err (msgs n))).outcome.count = 0 ∧
    (Tea.download_single_video url ct tid ao outPath
      (fun n => Tea.ExtractResult.err (msgs n))).outcome.message =
      "[ERROR] [Thread " ++ toString tid ++ "] Failed after " ++
        toString Tea.MAX_RETRIES ++ " attempts. Last error: " ++ msgs 3 := by
  refine ⟨rfl, rfl, rfl, rfl, rfl⟩

/-- C3: for every URL, if some download attempt returns without raising
but yields either a `None` result or a playlist-typed result with zero
entries on the very first attempt, the worker makes exactly one attempt
(no retry, no sleep) and returns a failure outcome with `count = 0`. -/
theorem C3_no_retry_on_none_or_empty (url ct : String) (tid : Nat) (ao : Bool)
    (outPath : String) (oracle : Nat → Tea.ExtractResult)
    (h : oracle 1 = Tea.ExtractResult.retNone ∨
      ∃ t, oracle 1 = Tea.ExtractResult.playlist t 0) :
    (Tea.download_single_video url ct tid ao outPath oracle).attempts = 1 ∧
    (Tea.download_single_video url ct tid ao outPath oracle).sleeps = [] ∧
    (Tea.download_single_video url ct tid ao outPath oracle).outcome.success = false ∧
    (Tea.download_single_video url ct tid ao outPath oracle).outcome.count = 0 := by
  rcases h with h | ⟨t, h⟩ <;>
    · rw [Tea.download_single_video, Tea.MAX_RETRIES, Tea.downloadLoop, h]
      simp

/-- Witness for C3 at a concrete oracle that returns `None`. -/
theorem C3_witness :
    (Tea.download_single_video "u" "video" 1 false "downloads"
      (fun _ => Tea.ExtractResult.retNone)).attempts = 1 ∧
    (Tea.download_single_video "u" "video" 1 false "downloads"
      (fun _ => Tea.ExtractResult.retNone)).sleeps = [] ∧
    (Tea.download_single_video "u" "video" 1 false "downloads"
      (fun _ => Tea.ExtractResult.retNone)).outcome.success = false ∧
    (Tea.download_single_video "u" "video" 1 false "downloads"
      (fun _ => Tea.ExtractResult.retNone)).outcome.count = 0 :=
  C3_no_retry_on_none_or_empty "u" "video" 1 false "downloads"
    (fun _ => Tea.ExtractResult.retNone) (Or.inl rfl)

/-- C4: every `DownloadOutcome` produced by the worker satisfies
`success = true → count ≥ 1`; in particular a playlist or channel that
expands to zero entries on the first attempt is reported as a failure even
though the extraction call did not throw. -/
theorem C4_success_invariant (url ct : String) (tid : Nat) (ao : Bool) (outPath : String)
    (oracle : Nat → Tea.ExtractResult) :
    ((Tea.download_single_video url ct tid ao outPath oracle).outcome.success = true →
      1 ≤ (Tea.download_single_video url ct tid ao outPath oracle).outcome.count) ∧
    (∀ t, oracle 1 = Tea.ExtractResult.playlist t 0 →
      (Tea.download_single_video url ct tid ao outPath oracle).outcome.success = false) := by
  constructor
  · exact Tea.downloadLoop_success_count url ct tid ao outPath oracle Tea.MAX_RETRIES 1 none
  · intro t h
    show (Tea.downloadLoop url ct tid ao outPath oracle 1 Tea.MAX_RETRIES none).outcome.success = false
    rw [Tea.MAX_RETRIES, Tea.downloadLoop, h]
    simp

namespace Tea

/-- The URL-pattern fallback always yields one of the three kinds. -/
theorem guess_from_url_kind (url : String) : isContentKind (guess_from_url url) := by
  unfold guess_from_url
  split_ifs <;> simp [isContentKind]

/-- Every spec-shaped collaborator response classifies to one of the three
kinds. -/
theorem extract_with_ytdlp_kind (res : YtdlpResult) (url : String)
    (h : specShapedResult res) : isContentKind (extract_with_ytdlp res url) := by
  rcases h with h | h | h | h | h <;> subst h
  · exact guess_from_url_kind url
  · exact guess_from_url_kind url
  · exact Or.inl rfl
  · exact Or.inl rfl
  · by_cases hc : is_channel_url url = true
    · simp [extract_with_ytdlp, hc, isContentKind]
    · simp [extract_with_ytdlp, hc, isContentKind]

end Tea

/-- C6: for every URL containing one of the segments `/channel/`, `/c/`,
`/user/`, or `/@`, classification returns `channel`, even when the
extraction collaborator succeeds and reports a generic `playlist` type for
that URL (and likewise when it raises or returns `None`). -/
theorem C6_channel_disambiguation (url : String)
    (h : Tea.strContains url "/channel/" = true ∨ Tea.strContains url "/c/" = true ∨
      Tea.strContains url "/user/" = true ∨ Tea.strContains url "/@" = true) :
    Tea.extract_with_ytdlp (Tea.YtdlpResult.ret (some "playlist")) url = "channel" ∧
    Tea.extract_with_ytdlp Tea.YtdlpResult.raises url = "channel" ∧
    Tea.extract_with_ytdlp Tea.YtdlpResult.retNone url = "channel" := by
  have hc : Tea.is_channel_url url = true := by
    simp only [Tea.is_channel_url, List.any_cons, List.any_nil, id, Bool.or_false,
      Bool.or_eq_true]
    rcases h with h | h | h | h <;> simp [h]
  refine ⟨?_, ?_, ?_⟩ <;>
    simp [Tea.extract_with_ytdlp, Tea.guess_from_url, hc]

/-- Witness for C6 at a concrete channel URL whose collaborator response
is a generic playlist type. -/
theorem C6_witness :
    Tea.extract_with_ytdlp (Tea.YtdlpResult.ret (some "playlist"))
      "https://www.youtube.com/channel/UC123" = "channel" :=
  (C6_channel_disambiguation "https://www.youtube.com/channel/UC123"
    (Or.inl (by decide))).1

/-- C7: for every string input (valid URL, malformed string, or empty) and
every collaborator response of the shapes of spec section 6 — the call
raises, returns `None`, or returns a playlist-typed or single-item mapping
— classification returns one of the three content kinds.  Exceptions from
the collaborator are modelled as the `raises` response, which the code
turns into the URL-pattern fallback (info.py lines 83-86): the function is
total and never propagates an error.  The cache hypothesis states that
cached values are earlier classification results, which the code
guarantees (info.py lines 138-139). -/
theorem C7_classification_total (cache : List (String × String))
    (res : Tea.YtdlpResult) (url : String)
    (hcache : ∀ p ∈ cache, Tea.isContentKind p.2)
    (hres : Tea.specShapedResult res) :
    Tea.isContentKind (Tea.get_info cache res url).1 := by
  rcases hf : cache.find? (fun p => p.1 = url) with _ | p
  · have he : (Tea.get_info cache res url).1 = Tea.extract_with_ytdlp res url := by
      unfold Tea.get_info
      rw [hf]
    rw [he]
    exact Tea.extract_with_ytdlp_kind res url hres
  · have he : (Tea.get_info cache res url).1 = p.2 := by
      unfold Tea.get_info
      rw [hf]
    rw [he]
    exact hcache p (List.mem_of_find?_eq_some hf)

/-- Witness for C7 on the empty string with a raising collaborator and an
empty cache. -/
theorem C7_witness : Tea.isContentKind (Tea.get_info [] Tea.YtdlpResult.raises "").1 :=
  C7_classification_total [] Tea.YtdlpResult.raises ""
    (fun p hp => absurd hp (List.not_mem_nil p)) (Or.inl rfl)

namespace Tea.HistoryManager

/-- A filter shortens a list exactly when some element fails the
predicate. -/
theorem filter_length_lt_iff {α : Type} (p : α → Bool) (l : List α) :
    (l.filter p).length < l.length ↔ ∃ x ∈ l, ¬ p x = true := by
  induction l with
  | nil => simp
  | cons a t ih =>
    by_cases hpa : p a = true
    · simp [List.filter_cons, hpa, ih]
    · simp only [List.filter_cons, hpa, if_neg, Bool.false_eq_true, ite_false, List.length_cons]
      constructor
      · intro _
        exact ⟨a, List.mem_cons_self a t, hpa⟩
      · intro _
        exact Nat.lt_succ_of_le (List.length_filter_le p t)

/-- The new entry is present in some partition after `histAppend`. -/
theorem mem_histAppend (h : History) (today : String) (e : HistoryEntry) :
    ∃ p ∈ histAppend h today e, e ∈ p.2 := by
  induction h with
  | nil => exact ⟨(today, [e]), by simp [histAppend], by simp⟩
  | cons q rest ih =>
    obtain ⟨d1, ds⟩ := q
    rw [histAppend]
    by_cases hd : d1 = today
    · rw [if_pos hd]
      exact ⟨(d1, ds ++ [e]), List.mem_cons_self _ _, by simp⟩
    · rw [if_neg hd]
      obtain ⟨p, hp, he⟩ := ih
      exact ⟨p, List.mem_cons_of_mem _ hp, he⟩

/-- When no partition holds a matching entry, `is_downloaded` reports
`(false, none)`. -/
theorem is_downloaded_eq_false (h : History) (url : String)
    (hn : ∀ p ∈ h, ∀ d ∈ p.2, ¬ d.url = url) :
    is_downloaded h url = (false, none) := by
  induction h with
  | nil => rfl
  | cons q rest ih =>
    obtain ⟨d1, ds⟩ := q
    rw [is_downloaded]
    have hf : ds.find? (fun d => d.url = url) = none := by
      rw [List.find?_eq_none]
      intro d hd
      simpa using hn (d1, ds) (List.mem_cons_self _ _) d hd
    rw [hf]
    exact ih fun p hp d hd => hn p (List.mem_cons_of_mem _ hp) d hd

/-- When some partition holds a matching entry, `is_downloaded` reports
`true` together with an entry whose `url` matches. -/
theorem is_downloaded_true_of_mem (h : History) (url : String)
    (hm : ∃ p ∈ h, ∃ d ∈ p.2, d.url = url) :
    ∃ e, is_downloaded h url = (true, some e) ∧ e.url = url := by
  induction h with
  | nil => simp at hm
  | cons q rest ih =>
    obtain ⟨d1, ds⟩ := q
    rw [is_downloaded]
    rcases hf : ds.find? (fun d => d.url = url) with _ | e
    · rw [hf]
      dsimp only
      rw [List.find?_eq_none] at hf
      apply ih
      rcases hm with ⟨p, hp, d, hd, hdu⟩
      rcases List.mem_cons.mp hp with rfl | hp'
      · exact absurd (by simpa using hdu) (by simpa using hf d hd)
      · exact ⟨p, hp', d, hd, hdu⟩
    · rw [hf]
      exact ⟨e, rfl, by simpa using List.find?_some hf⟩

/-- `remove` strips every matching entry from the structure it returns. -/
theorem remove_no_match (h : History) (url : String) :
    ∀ p ∈ (remove h url).2, ∀ d ∈ p.2, ¬ d.url = url := by
  intro p hp d hd
  simp only [remove] at hp
  obtain ⟨hp', _⟩ := List.mem_filter.mp hp
  obtain ⟨q, _, rfl⟩ := List.mem_map.mp hp'
  have := (List.mem_filter.mp hd).2
  simpa using this

/-- `remove` leaves no empty partition in the structure it returns. -/
theorem remove_no_empty (h : History) (url : String) :
    ∀ p ∈ (remove h url).2, p.2 ≠ [] := by
  intro p hp
  simp only [remove] at hp
  have := (List.mem_filter.mp hp).2
  simpa [List.isEmpty_iff] using this

/-- `remove` reports `True` exactly when some partition holds a matching
entry. -/
theorem remove_found_iff (h : History) (url : String) :
    (remove h url).1 = true ↔ ∃ p ∈ h, ∃ d ∈ p.2, d.url = url := by
  simp only [remove, List.any_eq_true, decide_eq_true_eq, filter_length_lt_iff]
  constructor
  · rintro ⟨p, hp, d, hd, hnd⟩
    exact ⟨p, hp, d, hd, by simpa using hnd⟩
  · rintro ⟨p, hp, d, hd, hdu⟩
    exact ⟨p, hp, d, hd, by simpa using hdu⟩

end Tea.HistoryManager

/-- C8: for every history, url, title and path: `add(url, title, path)`
followed by `is_downloaded(url)` returns `(true, entry)` with `entry.url
= url`, and `remove(url)` followed by `is_downloaded(url)` returns
`(false, None)` (the persisted file keeps its old — matchless — content
when `remove` found nothing to delete). -/
theorem C8_history_roundtrip (h : Tea.History) (today url title path ts : String) :
    (∃ e, Tea.HistoryManager.is_downloaded
        (Tea.HistoryManager.add h today url title path ts) url = (true, some e) ∧
      e.url = url) ∧
    Tea.HistoryManager.is_downloaded (Tea.HistoryManager.removeFile h url) url =
      (false, none) := by
  constructor
  · apply Tea.HistoryManager.is_downloaded_true_of_mem
    obtain ⟨p, hp, he⟩ := Tea.HistoryManager.mem_histAppend h today
      { url := url, title := title, output_path := path, timestamp := ts }
    exact ⟨p, hp, _, he, rfl⟩
  · apply Tea.HistoryManager.is_downloaded_eq_false
    intro p hp d hd
    unfold Tea.HistoryManager.removeFile at hp
    by_cases hf : (Tea.HistoryManager.remove h url).1 = true
    · rw [if_pos hf] at hp
      exact Tea.HistoryManager.remove_no_match h url p hp d hd
    · rw [if_neg hf] at hp
      intro hdu
      exact hf ((Tea.HistoryManager.remove_found_iff h url).mpr ⟨p, hp, d, hd, hdu⟩)

/-- C9: `remove(url)` deletes every entry whose url exactly matches `url`
across all date partitions, leaves no date key whose entry list became
empty in the persisted structure (when it removed something it persists a
structure with no empty partition at all), and returns `True` exactly
when at least one entry was removed. -/
theorem C9_remove_all_matches (h : Tea.History) (url : String) :
    (∀ p ∈ Tea.HistoryManager.removeFile h url, ∀ d ∈ p.2, ¬ d.url = url) ∧
    ((Tea.HistoryManager.remove h url).1 = true →
      ∀ p ∈ Tea.HistoryManager.removeFile h url, p.2 ≠ []) ∧
    ((Tea.HistoryManager.remove h url).1 = true ↔
      ∃ p ∈ h, ∃ d ∈ p.2, d.url = url) := by
  refine ⟨?_, ?_, Tea.HistoryManager.remove_found_iff h url⟩
  · intro p hp d hd
    unfold Tea.HistoryManager.removeFile at hp
    by_cases hf : (Tea.HistoryManager.remove h url).1 = true
    · rw [if_pos hf] at hp
      exact Tea.HistoryManager.remove_no_match h url p hp d hd
    · rw [if_neg hf] at hp
      intro hdu
      exact hf ((Tea.HistoryManager.remove_found_iff h url).mpr ⟨p, hp, d, hd, hdu⟩)
  · intro hf p hp
    unfold Tea.HistoryManager.removeFile at hp
    rw [if_pos hf] at hp
    exact Tea.HistoryManager.remove_no_empty h url p hp

/-- Witness for C9 at a one-partition history holding exactly one matching
entry: `remove` reports `True` and the persisted result has no empty
partition. -/
theorem C9_witness :
    (Tea.HistoryManager.remove Tea.HistoryManager.sampleHistory "u").1 = true ∧
    ∀ p ∈ Tea.HistoryManager.removeFile Tea.HistoryManager.sampleHistory "u", p.2 ≠ [] :=
  ⟨by decide,
   (C9_remove_all_matches Tea.HistoryManager.sampleHistory "u").2.1 (by decide)⟩

/-- Witness for C4: a concrete successful single-video outcome has count
1 ≥ 1, and a concrete zero-entry playlist outcome is a failure. -/
theorem C4_witness :
    1 ≤ (Tea.download_single_video "u" "video" 1 false "d"
      (fun _ => Tea.ExtractResult.single (some "Song"))).outcome.count ∧
    (Tea.download_single_video "u" "playlist" 1 false "d"
      (fun _ => Tea.ExtractResult.playlist (some "P") 0)).outcome.success = false :=
  ⟨(C4_success_invariant "u" "video" 1 false "d"
      (fun _ => Tea.ExtractResult.single (some "Song"))).1 rfl,
   (C4_success_invariant "u" "playlist" 1 false "d"
      (fun _ => Tea.ExtractResult.playlist (some "P") 0)).2 (some "P") rfl⟩

namespace Tea

/-- Appending under `t` extends the entries stored under `t` by the new
entry. -/
theorem entriesOn_histAppend_self (h : History) (t : String) (e : HistoryEntry) :
    entriesOn (HistoryManager.histAppend h t e) t = entriesOn h t ++ [e] := by
  induction h with
  | nil => simp [HistoryManager.histAppend, entriesOn]
  | cons q rest ih =>
    obtain ⟨dd, ds⟩ := q
    rw [HistoryManager.histAppend]
    by_cases hdd : dd = t
    · rw [if_pos hdd]
      simp [entriesOn, hdd]
    · rw [if_neg hdd]
      simp [entriesOn, hdd, ih]

/-- Appending under `t` leaves the entries stored under any other date
unchanged. -/
theorem entriesOn_histAppend_ne (h : History) (t : String) (e : HistoryEntry)
    (d : String) (hne : d ≠ t) :
    entriesOn (HistoryManager.histAppend h t e) d = entriesOn h d := by
  have htd : ¬ t = d := fun hh => hne hh.symm
  induction h with
  | nil => simp [HistoryManager.histAppend, entriesOn, htd]
  | cons q rest ih =>
    obtain ⟨dd, ds⟩ := q
    rw [HistoryManager.histAppend]
    by_cases hdd : dd = t
    · rw [if_pos hdd]
      subst hdd
      simp [entriesOn, htd]
    · rw [if_neg hdd]
      by_cases hdd2 : dd = d
      · simp [entriesOn, hdd2]
      · simp [entriesOn, hdd2, ih]

/-- The collection loop equals a fold of history appends over the
successful outcomes only: failures never touch the history. -/
theorem processResults_eq_fold (today outPath ts : String) :
    ∀ (rs : List DownloadOutcome) (h : History),
      processResults today outPath ts h rs =
        (rs.filter fun r => r.success).foldl
          (fun acc r => HistoryManager.histAppend acc today (outcomeEntry outPath ts r)) h := by
  intro rs
  induction rs with
  | nil => intro h; rfl
  | cons r rest ih =>
    intro h
    rw [processResults]
    by_cases hs : r.success = true
    · rw [if_pos hs, List.filter_cons_of_pos hs, List.foldl_cons]
      exact ih _
    · rw [if_neg hs, List.filter_cons_of_neg (by simpa using hs)]
      exact ih h

end Tea

/-- C10: for every prior history and every batch outcome list, the
coordinator's collection loop leaves every date partition other than
today's untouched, and today's partition gains exactly one entry per
successful outcome — built from that outcome's url and title — in
completion order; failed outcomes cause no history mutation. -/
theorem C10_history_effect (today outPath ts : String) (h : Tea.History)
    (results : List Tea.DownloadOutcome) (d : String) (hd : d ≠ today) :
    Tea.entriesOn (Tea.processResults today outPath ts h results) d = Tea.entriesOn h d ∧
    Tea.entriesOn (Tea.processResults today outPath ts h results) today =
      Tea.entriesOn h today ++
        (results.filter fun r => r.success).map (Tea.outcomeEntry outPath ts) := by
  rw [Tea.processResults_eq_fold]
  induction results using List.reverseRecOn generalizing h with
  | nil => simp
  | append_singleton rest r ih =>
    by_cases hs : r.success = true
    · rw [List.filter_append, List.filter_cons_of_pos hs, List.filter_nil,
        List.foldl_append, List.foldl_cons, List.foldl_nil]
      obtain ⟨f1, f2⟩ := ih h
      constructor
      · rw [Tea.entriesOn_histAppend_ne _ _ _ _ hd, f1]
      · rw [Tea.entriesOn_histAppend_self, f2]
        simp [List.filter_append, List.filter_cons_of_pos hs]
    · rw [List.filter_append, List.filter_cons_of_neg (by simpa using hs), List.filter_nil,
        List.foldl_append, List.foldl_nil]
      obtain ⟨f1, f2⟩ := ih h
      refine ⟨f1, ?_⟩
      rw [f2]
      simp [List.filter_append, List.filter_cons_of_neg (by simpa using hs)]

/-- Witness for C10 on the concrete scenario batch over a one-partition
prior history and a different current date. -/
theorem C10_witness :
    Tea.entriesOn (Tea.processResults "2025-01-02" "downloads" "s"
      Tea.HistoryManager.sampleHistory Tea.scenarioOutcomes) "2025-01-01" =
    Tea.entriesOn Tea.HistoryManager.sampleHistory "2025-01-01" :=
  (C10_history_effect "2025-01-02" "downloads" "s" Tea.HistoryManager.sampleHistory
    Tea.scenarioOutcomes "2025-01-01" (by decide)).1

namespace Tea

/-- Second components of an `enumFrom` list are the original list. -/
theorem enumFrom_map_snd {α : Type} : ∀ (n : Nat) (l : List α),
    (List.enumFrom n l).map Prod.snd = l := by
  intro n l
  induction l generalizing n with
  | nil => rfl
  | cons a t ih => simp [List.enumFrom, ih]

end Tea

/-- C5 counterexample: at `max_workers = 7` the pool created by the
coordinator has size 7, not `7` clamped to the range `[1, 5]` (which is
5): `DownloadService.download` passes `max_workers` to the executor
unchanged. -/
theorem C5_counterexample :
    (Tea.submitBatch ["https://youtu.be/AAA"] 7).poolSize ≠ min (max 7 1) 5 := by
  decide

/-- C5 (amended): for every batch of URLs the coordinator submits one
worker task per URL (in order, task `i` with thread id `i+1`) to a worker
pool whose size is exactly `max_workers`, unclamped; the range `[1, 5]`
is enforced only by input validation, `validate_concurrent_workers`
accepting exactly the integers in `[1, 5]` and rejecting unparsable
input. -/
theorem C5_submission (urls : List String) (w : Nat) :
    (Tea.submitBatch urls w).poolSize = w ∧
    (Tea.submitBatch urls w).tasks.map Prod.snd = urls ∧
    (Tea.submitBatch urls w).tasks.length = urls.length ∧
    (∀ n : Int, Tea.validate_concurrent_workers (some n) = true ↔ 1 ≤ n ∧ n ≤ 5) ∧
    Tea.validate_concurrent_workers none = false := by
  refine ⟨rfl, ?_, ?_, ?_, rfl⟩
  · show (List.map _ (List.enumFrom 0 urls)).map Prod.snd = urls
    rw [List.map_map]
    exact Tea.enumFrom_map_snd 0 urls
  · simp [Tea.submitBatch]
  · intro n
    simp [Tea.validate_concurrent_workers]

/-- Witness for C5 at a concrete two-URL batch and the boundary validation
inputs. -/
theorem C5_witness :
    (Tea.submitBatch ["a", "b"] 3).tasks.map Prod.snd = ["a", "b"] ∧
    (Tea.validate_concurrent_workers (some 7) = true ↔ 1 ≤ (7 : Int) ∧ (7 : Int) ≤ 5) :=
  ⟨(C5_submission ["a", "b"] 3).2.1, (C5_submission ["a", "b"] 3).2.2.2.1 7⟩

namespace Tea

/-- The successful outcomes of the scenario batch: exactly the first
URL's. -/
theorem scenarioOutcomes_filter_success :
    Tea.scenarioOutcomes.filter (fun r => r.success) =
      [(Tea.download_single_video Tea.scenarioUrlA "video" 1 false "downloads"
        (Tea.scenarioOracle Tea.scenarioUrlA)).outcome] := by
  decide

/-- The failed outcomes of the scenario batch: exactly the second URL's. -/
theorem scenarioOutcomes_filter_failed :
    Tea.scenarioOutcomes.filter (fun r => !r.success) =
      [(Tea.download_single_video Tea.scenarioUrlB "video" 2 false "downloads"
        (Tea.scenarioOracle Tea.scenarioUrlB)).outcome] := by
  decide

end Tea

/-- C1 counterexample: in the concrete scenario (first URL succeeds as a
single video titled `Song`, second raises on every attempt), the final
summary's failed item-count is not 1 even though exactly one URL failed:
every failure outcome carries `count = 0` and `_print_summary` sums those
counts. -/
theorem C1_counterexample :
    (Tea.print_summary Tea.scenarioOutcomes).failedUrls.length = 1 ∧
    (Tea.print_summary Tea.scenarioOutcomes).totalFailed ≠ 1 := by
  decide

/-- C1 (amended): in the concrete scenario of two URLs where the first
always succeeds as a single video with title `Song` and the second raises
on every attempt, for every completion order of the two worker tasks the
final summary reports 1 successful item and a failed item-count of 0
(failures carry `count = 0` and the summary sums counts — the failed-URL
list, not the count, reflects the failure), the failure list contains
exactly the second URL with a non-empty reason string, and the history
(previously empty) holds exactly one entry for the first URL, under
today's date, titled `Song`. -/
theorem C1_scenario (completed : List Tea.DownloadOutcome) (today ts : String)
    (hp : completed.Perm Tea.scenarioOutcomes) :
    (Tea.print_summary completed).totalSuccessful = 1 ∧
    (Tea.print_summary completed).totalFailed = 0 ∧
    (Tea.print_summary completed).failedUrls.map Prod.fst = [Tea.scenarioUrlB] ∧
    (∀ p ∈ (Tea.print_summary completed).failedUrls, ¬ p.2 = "") ∧
    Tea.processResults today "downloads" ts [] completed =
      [(today, [Tea.scenarioEntry ts])] := by
  have h1 : completed.filter (fun r => r.success) =
      [(Tea.download_single_video Tea.scenarioUrlA "video" 1 false "downloads"
        (Tea.scenarioOracle Tea.scenarioUrlA)).outcome] :=
    List.perm_singleton.mp
      (Tea.scenarioOutcomes_filter_success ▸ hp.filter (fun r => r.success))
  have h2 : completed.filter (fun r => !r.success) =
      [(Tea.download_single_video Tea.scenarioUrlB "video" 2 false "downloads"
        (Tea.scenarioOracle Tea.scenarioUrlB)).outcome] :=
    List.perm_singleton.mp
      (Tea.scenarioOutcomes_filter_failed ▸ hp.filter (fun r => !r.success))
  refine ⟨?_, ?_, ?_, ?_, ?_⟩
  · show ((completed.filter fun r => r.success).map fun r => r.count).sum = 1
    rw [h1]
    rfl
  · show ((completed.filter fun r => !r.success).map fun r => r.count).sum = 0
    rw [h2]
    rfl
  · show ((completed.filter fun r => !r.success).map fun r => (r.url, r.message)).map
      Prod.fst = [Tea.scenarioUrlB]
    rw [h2]
    rfl
  · intro p hp2
    have : p ∈ ((completed.filter fun r => !r.success).map fun r => (r.url, r.message)) := hp2
    rw [h2] at this
    simp only [List.map_cons, List.map_nil, List.mem_singleton] at this
    subst this
    decide
  · rw [Tea.processResults_eq_fold, h1]
    rfl

/-- Witness for C1 at the submission-order completion of the scenario. -/
theorem C1_witness :
    (Tea.print_summary Tea.scenarioOutcomes).totalSuccessful = 1 ∧
    Tea.processResults "2025-01-01" "downloads" "s" [] Tea.scenarioOutcomes =
      [("2025-01-01", [Tea.scenarioEntry "s"])] :=
  ⟨(C1_scenario Tea.scenarioOutcomes "2025-01-01" "s" (List.Perm.refl _)).1,
   (C1_scenario Tea.scenarioOutcomes "2025-01-01" "s" (List.Perm.refl _)).2.2.2.2⟩

/-- Witness for C8 at a concrete empty prior history. -/
theorem C8_witness :
    (∃ e, Tea.HistoryManager.is_downloaded
        (Tea.HistoryManager.add [] "2025-01-01" "u" "t" "o" "s") "u" = (true, some e) ∧
      e.url = "u") ∧
    Tea.HistoryManager.is_downloaded (Tea.HistoryManager.removeFile [] "u") "u" =
      (false, none) :=
  C8_history_roundtrip [] "2025-01-01" "u" "t" "o" "s"
